import Mathlib

/-!
# Verification of the tiered B-roll clip-localization pipeline

Shallow embedding of the Python sources under
`skills/analyzing-video/servers/qwen-vl/` (qwen_client.py, identify_broll.py,
refine_broll_clip.py, human_refine_broll.py) and proofs of the spec claims.

Modelling conventions:
* Python floats are modelled exactly over `ℚ` (the claims' constants are
  representable and no claim hinges on binary rounding).
* Raised Python exceptions are modelled as `Except` errors; the network
  transport and `json.loads` are external collaborators and enter as
  function parameters.
* Wall-clock sleeping is modelled by recording the slept delays in a list.
-/

namespace QwenVL

/-! ## Python strings

Python `str` values that the code computes on are modelled as `List Char`
(`Str`), because the claims need concrete evaluation and `List Char`
operations reduce in the kernel.  `str.lower` is modelled by
`Char.toLower` (ASCII case folding, which covers every string the code and
the claims handle) and `str.strip` by trimming `Char.isWhitespace`. -/

abbrev Str := List Char

/-- Python `s.lower()`. -/
def pyLower (s : Str) : Str := s.map Char.toLower

/-- Python `s.strip()`: remove leading and trailing whitespace. -/
def pyStrip (s : Str) : Str :=
  ((s.dropWhile Char.isWhitespace).reverse.dropWhile Char.isWhitespace).reverse

/-- Python `needle in haystack` on strings: substring containment. -/
def isSubstring (needle hay : Str) : Bool :=
  needle.isPrefixOf hay ||
    match hay with
    | [] => false
    | _ :: t => isSubstring needle t

/-- Python `s.split(chr)` for a single-character separator (the code only
splits on `'\n'`).  Always returns at least one piece. -/
def pySplitOn (sep : Char) : Str → List Str
  | [] => [[]]
  | c :: t =>
      if c = sep then [] :: pySplitOn sep t
      else
        match pySplitOn sep t with
        | [] => [[c]]
        | h :: r => (c :: h) :: r

/-- Python `sep.join(pieces)` for a single-character separator. -/
def pyJoin (sep : Char) : List Str → Str
  | [] => []
  | [h] => h
  | h :: t => h ++ sep :: pyJoin sep t

/-! ## Python exceptions

The exceptions the embedded code can raise.  `str(e)` is modelled by
`PyErr.str`. -/

inductive PyErr where
  /-- `Exception(msg)` raised explicitly by the code. -/
  | exception (msg : Str)
  /-- `NameError`: a name that is not bound in any enclosing scope was
  referenced (the message names the offending identifier). -/
  | nameError (name : Str)
  /-- `IndexError` from indexing an empty list. -/
  | indexError
  /-- `TypeError` from subscripting `None`. -/
  | typeError
  /-- `EOFError` from `input()` on exhausted stdin. -/
  | eofError
deriving DecidableEq, Repr

/-- Python `str(e)` for the exceptions above (messages abbreviated for the
non-`Exception` kinds; no claim inspects them). -/
def PyErr.str : PyErr → Str
  | PyErr.exception msg => msg
  | PyErr.nameError name => "NameError: ".data ++ name
  | PyErr.indexError => "IndexError: list index out of range".data
  | PyErr.typeError => "TypeError".data
  | PyErr.eofError => "EOFError".data

/-! ## qwen_client.py : retry machinery -/

/-- An error produced inside one attempt of a retry loop: either the
transport itself raised, or the code raised on inspecting the response
(`API error: ...` for a non-200 DashScope status, `No choices in OpenAI
response` for an empty choice list). -/
inductive AttemptErr where
  | transport (msg : String)
  | apiError (code message : String)
  | noChoices
deriving DecidableEq, Repr

/-- The error raised by `_make_request_*` after the retry loop:
`Exception(f"Fatal error after {MAX_RETRIES} retries: {str(last_error)}")`,
wrapping the last underlying error (`None` only if the loop ran zero times). -/
inductive ReqErr where
  | fatal (last : Option AttemptErr)
deriving DecidableEq, Repr

/-- `MAX_RETRIES = 5` (qwen_client.py line 53). -/
def MAX_RETRIES : Nat := 5

/-- `BACKOFF_DELAYS = [1, 2, 4, 8, 16]` seconds (qwen_client.py line 54). -/
def BACKOFF_DELAYS : List Nat := [1, 2, 4, 8, 16]

/-- A DashScope response object: `status_code`, `code`, `message` are the
fields the retry loop inspects; `output` stands for the payload used later. -/
structure DSResponse where
  status_code : Nat
  code : String
  message : String
  output : String
deriving DecidableEq, Repr

/-- An OpenAI-compatible completion: `choices` is the list of message
contents (each message's `content` string). -/
structure Completion where
  choices : List String
deriving DecidableEq, Repr

/-- The body of one `try:` block of `_make_request_dashscope` (lines
125-135): call the transport; a non-200 status raises
`Exception(f"API error: {response.code} - {response.message}")`, which the
enclosing `except` also catches. -/
def dashscopeAttempt (call : Nat → Except AttemptErr DSResponse) (attempt : Nat) :
    Except AttemptErr DSResponse :=
  match call attempt with
  | Except.error e => Except.error e
  | Except.ok response =>
      if response.status_code = 200 then Except.ok response
      else Except.error (AttemptErr.apiError response.code response.message)

/-- The body of one `try:` block of `_make_request_openai` (lines 181-192):
call the transport; a nonempty `choices` returns the first message content,
otherwise `raise Exception("No choices in OpenAI response")`. -/
def openaiAttempt (call : Nat → Except AttemptErr Completion) (attempt : Nat) :
    Except AttemptErr String :=
  match call attempt with
  | Except.error e => Except.error e
  | Except.ok completion =>
      match completion.choices with
      | [] => Except.error AttemptErr.noChoices
      | content :: _ => Except.ok content

/-- The retry loop shared verbatim by `_make_request_dashscope` (lines
122-157) and `_make_request_openai` (lines 178-214):
`for attempt in range(MAX_RETRIES)`, on failure sleep
`BACKOFF_DELAYS[attempt]` unless `attempt = MAX_RETRIES - 1`, and after the
loop `raise Exception("Fatal error after ... retries: ...")` wrapping the
last error.  Returns (result, list of slept delays, number of attempts
made); `remaining = MAX_RETRIES - attempt` counts the iterations left, so
`attempt < MAX_RETRIES - 1` is `remaining > 1`. -/
def retryGo {α : Type} (att : Nat → Except AttemptErr α) :
    Nat → Nat → Except ReqErr α × List Nat × Nat
  | _, 0 => (Except.error (ReqErr.fatal none), [], 0)
  | attempt, r + 1 =>
    match att attempt with
    | Except.ok v => (Except.ok v, [], 1)
    | Except.error e =>
        if r = 0 then
          (Except.error (ReqErr.fatal (some e)), [], 1)
        else
          let rest := retryGo att (attempt + 1) r
          (rest.1, BACKOFF_DELAYS.getD attempt 0 :: rest.2.1, rest.2.2 + 1)

/-- `QwenClient._make_request_dashscope`, instrumented with the slept
delays and the attempt count. -/
def make_request_dashscope (call : Nat → Except AttemptErr DSResponse) :
    Except ReqErr DSResponse × List Nat × Nat :=
  retryGo (dashscopeAttempt call) 0 MAX_RETRIES

/-- `QwenClient._make_request_openai`, instrumented with the slept delays
and the attempt count. -/
def make_request_openai (call : Nat → Except AttemptErr Completion) :
    Except ReqErr String × List Nat × Nat :=
  retryGo (openaiAttempt call) 0 MAX_RETRIES

/-! ## qwen_client.py : `analyze_video_structured` (lines 341-386)

`json.loads` is an external collaborator and enters as the parameter
`jsonParse`; the `str(e)` fragment of the failure message (the
`JSONDecodeError`'s own text) is likewise external and is not modelled. -/

/-- The fence-stripping block of `analyze_video_structured` (lines
368-378): after `strip()`, if the text starts with a code fence the first
line is dropped (`lines[1:]`), and the last line is dropped when it strips
to a bare fence.  `lines[-1]` on an empty list raises `IndexError` (the
single-line case `"```..."`). -/
def strip_code_fences (response_text : Str) : Except PyErr Str :=
  if "```".data.isPrefixOf response_text then
    let lines := (pySplitOn '\n' response_text).tail
    match lines.getLast? with
    | none => Except.error PyErr.indexError
    | some last =>
        let lines := if pyStrip last = "```".data then lines.dropLast else lines
        Except.ok (pyJoin '\n' lines)
  else Except.ok response_text

/-- The message of the exception raised on a JSON parse failure:
`f"Failed to parse response as JSON: {str(e)}\nResponse text: {response_text}"`
where `response_text` is the stripped text that was handed to the parser. -/
def parse_failure_msg (response_text : Str) : Str :=
  "Failed to parse response as JSON\nResponse text: ".data ++ response_text

/-- `QwenClient.analyze_video_structured` post-processing: strip
whitespace and a fenced code block, then parse as JSON; on parse failure
raise an exception whose message embeds the stripped text.  The raw-text
acquisition (`analyze_video`) is the already-modelled retry machinery, so
this definition starts from the raw response text. -/
def analyze_video_structured {J : Type} (jsonParse : Str → Option J)
    (raw : Str) : Except PyErr J :=
  match strip_code_fences (pyStrip raw) with
  | Except.error e => Except.error e
  | Except.ok response_text =>
      match jsonParse response_text with
      | some j => Except.ok j
      | none => Except.error (PyErr.exception (parse_failure_msg response_text))

/-! ## identify_broll.py -/

/-- One entry of the model's `clips` array, as consumed by
`calculate_relevance_score` and `identify_broll_clips`.  Every field the
code reads with `.get` is `Option`-valued (a missing key selects the
documented default). -/
structure ClipIn where
  start_time : Option ℚ
  end_time : Option ℚ
  description : Option Str
  tags : Option (List Str)
  visual_quality : Option Str
deriving DecidableEq, Repr

/-- The structured response of the identification prompt:
`response.get("clips", [])`. -/
structure BrollResponse where
  clips : Option (List ClipIn)
deriving DecidableEq, Repr

/-- Python `round(q, 2)` (identify_broll.py line 125), with float
arithmetic modelled exactly over `ℚ` and ties rounded to the nearest
integer number of hundredths. -/
def round2 (q : ℚ) : ℚ := (round (q * 100) : ℚ) / 100

/-- `calculate_relevance_score` (identify_broll.py lines 80-125).  The
`isinstance(k, list)` flattening branch is dead for typed input and is not
modelled; `quality_map.get(quality, 0.6)` becomes an if-chain over the
three keys with default `0.6`. -/
def calculate_relevance_score (clip : ClipIn) (keywords : List Str) : ℚ :=
  let keywords_lower := keywords.map (fun k => pyStrip (pyLower k))
  let tags := clip.tags.getD []
  let tags_lower := tags.map pyLower
  let tag_matches :=
    (keywords_lower.filter (fun kw => tags_lower.any (fun tag => isSubstring kw tag))).length
  let tag_score := min ((tag_matches : ℚ) / (max keywords_lower.length 1 : ℕ)) 1 * 0.5
  let description := pyLower (clip.description.getD [])
  let desc_matches :=
    (keywords_lower.filter (fun kw => isSubstring kw description)).length
  let desc_score := min ((desc_matches : ℚ) / (max keywords_lower.length 1 : ℕ)) 1 * 0.3
  let quality := clip.visual_quality.getD "medium".data
  let quality_score :=
    (if quality = "high".data then (1.0 : ℚ)
     else if quality = "medium".data then 0.6
     else if quality = "low".data then 0.3
     else 0.6) * 0.2
  round2 (tag_score + desc_score + quality_score)

/-- A clip after `identify_broll_clips` annotated it in place with
`source_video`, `duration`, `relevance_score` and `recommended`. -/
structure ScoredClip where
  base : ClipIn
  source_video : Str
  duration : ℚ
  relevance_score : ℚ
  recommended : Bool
deriving DecidableEq, Repr

/-- `identify_broll_clips` (identify_broll.py lines 128-171): the
per-video inference call enters as `analyze`; an inference failure is
caught and yields `[]`; otherwise every clip of the response is annotated
and scored. -/
def identify_broll_clips (analyze : Except PyErr BrollResponse)
    (video_path : Str) (keywords : List Str) : List ScoredClip :=
  match analyze with
  | Except.error _ => []
  | Except.ok response =>
      (response.clips.getD []).map (fun clip =>
        { base := clip,
          source_video := video_path,
          duration := clip.end_time.getD 0 - clip.start_time.getD 0,
          relevance_score := calculate_relevance_score clip keywords,
          recommended := decide ((0.7 : ℚ) ≤ calculate_relevance_score clip keywords) })

/-- `analyze_source_videos` (identify_broll.py lines 174-230), from the
point where the video list is known: analyze each video in order,
concatenate the per-video clips, and stable-sort by `relevance_score`
descending (`all_clips.sort(key=..., reverse=True)`). -/
def analyze_source_videos (analyze : Str → Except PyErr BrollResponse)
    (video_files : List Str) (keywords : List Str) : List ScoredClip :=
  let all_clips := (video_files.map
    (fun video_file => identify_broll_clips (analyze video_file) video_file keywords)).flatten
  all_clips.mergeSort (fun a b => decide (b.relevance_score ≤ a.relevance_score))

/-! ## refine_broll_clip.py -/

/-- `response["timestamp"]`: the model's window-relative pair. -/
structure Timestamp where
  start_seconds : ℚ
  end_seconds : ℚ
deriving DecidableEq, Repr

/-- `response["validation"]`: every key the code reads with `.get` is
`Option`-valued. -/
structure ValidationIn where
  clean_start : Option Bool
  clean_end : Option Bool
  no_humans : Option Bool
  complete_content : Option Bool
  matches_description : Option Bool
  confidence : Option ℚ
  issues : Option (List Str)
deriving DecidableEq, Repr

/-- The structured refinement response.  `timestamp` and `validation` are
indexed directly (`response["..."]`) and are required; `description` is
read with `.get`. -/
structure ModelResponse where
  timestamp : Timestamp
  validation : ValidationIn
  description : Option Str
deriving DecidableEq, Repr

/-- The dict returned by `extract_video_window` on success (lines
150-157). -/
structure Extraction where
  extracted_clip : Str
  window_start : ℚ
  window_end : ℚ
  duration : ℤ
  fps : ℕ
deriving DecidableEq, Repr

/-- `extract_video_window` (refine_broll_clip.py lines 107-160).  The
ffmpeg subprocess is the external collaborator `ffmpegRun` (its `Except`
error carries the captured stderr); `start_time = max(0, center_time -
padding)` and `duration = padding * 2` with `padding : int`.  On a
`CalledProcessError` the function raises
`Exception(f"ffmpeg extraction failed: {e.stderr}")`. -/
def extract_video_window (center_time : ℚ) (padding : ℤ) (output_path : Str)
    (ffmpegRun : Except Str Unit) : Except PyErr Extraction :=
  let start_time := max 0 (center_time - (padding : ℚ))
  let duration := padding * 2
  match ffmpegRun with
  | Except.ok _ =>
      Except.ok { extracted_clip := output_path,
                  window_start := start_time,
                  window_end := start_time + (duration : ℚ),
                  duration := duration,
                  fps := 10 }
  | Except.error stderr =>
      Except.error (PyErr.exception ("ffmpeg extraction failed: ".data ++ stderr))

/-- `result["tier2_refined"]` (the JSON field `end` is spelled `end_`,
`end` being reserved in Lean). -/
structure Tier2Refined where
  start : ℚ
  end_ : ℚ
  duration : ℚ
deriving DecidableEq, Repr

/-- `result["validation"]["checks"]` (present only on the success path). -/
structure Checks where
  clean_start : Bool
  clean_end : Bool
  no_humans : Bool
  complete_content : Bool
  matches_description : Bool
deriving DecidableEq, Repr

/-- `result["validation"]`. -/
structure ValidationOut where
  all_checks_pass : Bool
  confidence : ℚ
  issues : List Str
  checks : Option Checks
deriving DecidableEq, Repr

/-- The record `refine_clip` returns (lines 265-298 on success, 307-322 on
an analysis failure).  `error` and `model_description` are keys present on
only one of the two paths. -/
structure RefineResult where
  tier1_start : ℚ
  tier1_end : ℚ
  tier2_refined : Option Tier2Refined
  error : Option Str
  extraction_window : Extraction
  padding_used : ℤ
  validation : ValidationOut
  model_description : Option Str
deriving DecidableEq, Repr

/-- `refine_clip` (refine_broll_clip.py lines 163-322).  The inference
call enters as `analyze`.  Note the control flow of the source:
`extract_video_window` is called at line 209, OUTSIDE the `try:` that
begins at line 227, so an extraction failure propagates out of
`refine_clip`; only the analysis steps are guarded, and their failure
returns the `tier2_refined = None` record with confidence `0.0`. -/
def refine_clip (approx_start approx_end : ℚ) (padding : ℤ) (output_path : Str)
    (ffmpegRun : Except Str Unit) (analyze : Except PyErr ModelResponse) :
    Except PyErr RefineResult := do
  let center_time := (approx_start + approx_end) / 2
  let extraction_result ←
    extract_video_window center_time padding output_path ffmpegRun
  match analyze with
  | Except.ok response =>
      let window_start := extraction_result.window_start
      let refined_start := response.timestamp.start_seconds + window_start
      let refined_end := response.timestamp.end_seconds + window_start
      let refined_duration := refined_end - refined_start
      let validation := response.validation
      let all_checks_pass :=
        validation.clean_start.getD false && validation.clean_end.getD false &&
        validation.no_humans.getD false && validation.complete_content.getD false &&
        validation.matches_description.getD false
      let confidence := validation.confidence.getD 0.5
      Except.ok
        { tier1_start := approx_start, tier1_end := approx_end,
          tier2_refined := some { start := refined_start, end_ := refined_end,
                                  duration := refined_duration },
          error := none,
          extraction_window := extraction_result,
          padding_used := padding,
          validation :=
            { all_checks_pass := all_checks_pass,
              confidence := confidence,
              issues := validation.issues.getD [],
              checks := some
                { clean_start := validation.clean_start.getD false,
                  clean_end := validation.clean_end.getD false,
                  no_humans := validation.no_humans.getD false,
                  complete_content := validation.complete_content.getD false,
                  matches_description := validation.matches_description.getD false } },
          model_description := some (response.description.getD []) }
  | Except.error e =>
      Except.ok
        { tier1_start := approx_start, tier1_end := approx_end,
          tier2_refined := none,
          error := some e.str,
          extraction_window := extraction_result,
          padding_used := padding,
          validation :=
            { all_checks_pass := false,
              confidence := 0.0,
              issues := ["Analysis failed: ".data ++ e.str],
              checks := none },
          model_description := none }

/-- The exit disposition of `main` (refine_broll_clip.py lines 360-365):
exit code 0 iff `result.get("tier2_refined")` is truthy AND
`result["validation"]["confidence"] >= 0.7`, else exit code 2
("needs more refinement").  `all_checks_pass` is not consulted. -/
def refine_main_exit (result : RefineResult) : ℕ :=
  if result.tier2_refined.isSome = true ∧ (0.7 : ℚ) ≤ result.validation.confidence
  then 0 else 2

/-! ## human_refine_broll.py -/

/-- The dict `get_human_feedback` returns.  Keys absent on a branch are
`none`. -/
structure HumanResponse where
  action : Str
  reason : Option Str
  issue_type : Option Str
  corrected_timestamp : Option Timestamp
  feedback : Option Str
deriving DecidableEq, Repr

/-- Python `input()` over a scripted stdin: pop the next line, `EOFError`
when exhausted. -/
def pyInput : List Str → Except PyErr (Str × List Str)
  | [] => Except.error PyErr.eofError
  | line :: rest => Except.ok (line, rest)

/-- `get_human_feedback` (human_refine_broll.py lines 66-151).  The
function takes no parameters, yet line 118 interpolates `model_start` and
`model_end` into the Question-3 banner; those names are locals of `main`,
not bound in any scope visible here, so every branch that reaches line 118
(any issue type other than `'g'` after a usable `'y'` answer) raises
`NameError` before reading another input line.  Lines 120-151 (the
per-axis prompts and the float fallbacks) are unreachable and therefore
not modelled beyond the raise. -/
def get_human_feedback (inputs : List Str) : Except PyErr HumanResponse := do
  let (usable, inputs) ← pyInput inputs
  let usable := pyStrip (pyLower usable)
  if usable = "n".data then do
    let (reason, _) ← pyInput inputs
    Except.ok { action := "reject".data, reason := some reason,
                issue_type := none, corrected_timestamp := none, feedback := none }
  else if usable = "s".data then
    Except.ok { action := "skip".data, reason := some "User chose to skip".data,
                issue_type := none, corrected_timestamp := none, feedback := none }
  else do
    let (issue_type, _) ← pyInput inputs
    let issue_type := pyStrip (pyLower issue_type)
    if issue_type = "g".data then
      Except.ok { action := "accept".data,
                  reason := some ("Human approved model".data ++ '\'' :: "s timestamps".data),
                  issue_type := none, corrected_timestamp := none, feedback := none }
    else
      Except.error (PyErr.nameError "model_start".data)

/-- A terminal Tier-3 record (the fields of the dicts built by
`apply_human_corrections`, lines 154-202). -/
structure Tier3Result where
  final_status : Str
  reason : Option Str
  corrected_timestamp : Option Tier2Refined
  human_feedback : Option Str
  issue_type : Option Str
  usable_by_orchestrator : Bool
deriving DecidableEq, Repr

/-- `apply_human_corrections` (human_refine_broll.py lines 154-202).  On
the refine path `corrected["start_seconds"]` with `corrected = None` would
be a `TypeError` (dead for responses actually produced by
`get_human_feedback`, which never returns action `"refine"`). -/
def apply_human_corrections (window_start : ℚ) (human_response : HumanResponse) :
    Except PyErr Tier3Result :=
  if human_response.action = "reject".data ∨ human_response.action = "skip".data then
    Except.ok { final_status := human_response.action,
                reason := human_response.reason,
                corrected_timestamp := none,
                human_feedback := none, issue_type := none,
                usable_by_orchestrator := false }
  else if human_response.action = "accept".data then
    Except.ok { final_status := "accepted_as_is".data,
                reason := human_response.reason,
                corrected_timestamp := none,
                human_feedback := none, issue_type := none,
                usable_by_orchestrator := true }
  else
    match human_response.corrected_timestamp with
    | none => Except.error PyErr.typeError
    | some corrected =>
        let absolute_start := window_start + corrected.start_seconds
        let absolute_end := window_start + corrected.end_seconds
        Except.ok { final_status := "refined_by_human".data,
                    reason := none,
                    corrected_timestamp := some
                      { start := absolute_start, end_ := absolute_end,
                        duration := absolute_end - absolute_start },
                    human_feedback := human_response.feedback,
                    issue_type := human_response.issue_type,
                    usable_by_orchestrator := true }

/-- `interactive_refinement` (human_refine_broll.py lines 205-245):
display (pure side effect, not modelled), collect feedback, apply
corrections.  The metadata keys added afterwards (`window_clip`,
`window_start`, `model_suggestion`, `description`, `refined_at`,
`refinement_tier`) copy inputs or the wall clock and do not alter the
fields asserted about, so the result record is`Tier3Result`. -/
def interactive_refinement (window_start : ℚ) (inputs : List Str) :
    Except PyErr Tier3Result := do
  let human_response ← get_human_feedback inputs
  apply_human_corrections window_start human_response

/-! ## Spec-side definitions (for refinement-style claims) -/

/-- Modelled from the claim wording of C5: the quality weight
`high=1.0, medium=0.6, low=0.3, unknown=0.6`. -/
def specQualityWeight (quality : Option Str) : ℚ :=
  match quality with
  | none => 0.6
  | some q =>
      if q = "high".data then 1.0
      else if q = "medium".data then 0.6
      else if q = "low".data then 0.3
      else 0.6

/-- Modelled from the claim wording of C5: `0.5 × min(tag-match fraction,
1.0) + 0.3 × min(description-match fraction, 1.0) + 0.2 × quality weight`,
with case-insensitive substring keyword matching, rounded to 2 decimals. -/
def specRelevanceScore (tags : List Str) (description : Str)
    (quality : Option Str) (keywords : List Str) : ℚ :=
  let tagMatched :=
    (keywords.filter (fun kw => tags.any
      (fun tag => isSubstring (pyLower kw) (pyLower tag)))).length
  let descMatched :=
    (keywords.filter (fun kw => isSubstring (pyLower kw) (pyLower description))).length
  round2 (0.5 * min ((tagMatched : ℚ) / (keywords.length : ℚ)) 1 +
          0.3 * min ((descMatched : ℚ) / (keywords.length : ℚ)) 1 +
          0.2 * specQualityWeight quality)

/-! ## Concrete fixtures used by witnesses -/

/-- The clip of the spec's relevance-scoring example: tags
`["AI", "Productivity"]`, description `"uses ai tools daily"`, quality
`"high"`. -/
def exampleClip : ClipIn :=
  { start_time := some 83, end_time := some 88,
    description := some "uses ai tools daily".data,
    tags := some ["AI".data, "Productivity".data],
    visual_quality := some "high".data }

/-- The keywords of the spec's relevance-scoring example. -/
def exampleKeywords : List Str := ["ai".data, "tools".data]

/-- A two-video batch fixture: inference fails on `bad.mp4` and succeeds
on `good.mp4` with a single clip. -/
def demoAnalyze (video : Str) : Except PyErr BrollResponse :=
  if video = "good.mp4".data then Except.ok { clips := some [exampleClip] }
  else Except.error (PyErr.exception "boom".data)

end QwenVL

namespace QwenVL

/-! ## Theorems for claim C1 -/

/-- C1. On both protocols: a transport that raises on every attempt causes
exactly 5 attempts, sleeps of 1, 2, 4, 8 seconds between consecutive
attempts (no 16-second sleep after the final attempt), and a fatal error
wrapping the last underlying error; a transport whose attempt `j < 5`
succeeds (after `j` failures) yields that attempt's result, `j + 1`
attempts, and only the first `j` delays slept. -/
theorem c1_retry_policy :
    (∀ (call : Nat → Except AttemptErr DSResponse) (errs : Nat → AttemptErr),
      (∀ k, call k = Except.error (errs k)) →
      make_request_dashscope call =
        (Except.error (ReqErr.fatal (some (errs 4))), [1, 2, 4, 8], 5)) ∧
    (∀ (call : Nat → Except AttemptErr DSResponse) (errs : Nat → AttemptErr)
        (j : Nat) (resp : DSResponse),
      j < 5 → (∀ k, k < j → call k = Except.error (errs k)) →
      call j = Except.ok resp → resp.status_code = 200 →
      make_request_dashscope call =
        (Except.ok resp, BACKOFF_DELAYS.take j, j + 1)) ∧
    (∀ (call : Nat → Except AttemptErr Completion) (errs : Nat → AttemptErr),
      (∀ k, call k = Except.error (errs k)) →
      make_request_openai call =
        (Except.error (ReqErr.fatal (some (errs 4))), [1, 2, 4, 8], 5)) ∧
    (∀ (call : Nat → Except AttemptErr Completion) (errs : Nat → AttemptErr)
        (j : Nat) (content : String) (rest : List String) (comp : Completion),
      j < 5 → (∀ k, k < j → call k = Except.error (errs k)) →
      call j = Except.ok comp → comp.choices = content :: rest →
      make_request_openai call =
        (Except.ok content, BACKOFF_DELAYS.take j, j + 1)) := by
  refine ⟨?_, ?_, ?_, ?_⟩
  · intro call errs h
    simp [make_request_dashscope, MAX_RETRIES, retryGo, dashscopeAttempt,
      h 0, h 1, h 2, h 3, h 4, BACKOFF_DELAYS]
  · intro call errs j resp hj hlt hok hstatus
    interval_cases j <;>
      simp [make_request_dashscope, MAX_RETRIES, retryGo, dashscopeAttempt,
        hok, hstatus, BACKOFF_DELAYS] <;>
      simp_all [make_request_dashscope, MAX_RETRIES, retryGo, dashscopeAttempt,
        hlt 0, hlt 1, hlt 2, hlt 3, BACKOFF_DELAYS]
  · intro call errs h
    simp [make_request_openai, MAX_RETRIES, retryGo, openaiAttempt,
      h 0, h 1, h 2, h 3, h 4, BACKOFF_DELAYS]
  · intro call errs j content rest comp hj hlt hok hchoices
    interval_cases j <;>
      simp [make_request_openai, MAX_RETRIES, retryGo, openaiAttempt,
        hok, hchoices, BACKOFF_DELAYS] <;>
      simp_all [make_request_openai, MAX_RETRIES, retryGo, openaiAttempt,
        hlt 0, hlt 1, hlt 2, hlt 3, BACKOFF_DELAYS]

/-- Witness for C1: a transport failing every attempt exhausts all 5
attempts with sleeps [1, 2, 4, 8]; a transport failing twice then
succeeding returns the success after 3 attempts and sleeps [1, 2]. -/
theorem c1_retry_policy_witness :
    make_request_dashscope (fun _ => Except.error (AttemptErr.transport "down")) =
      (Except.error (ReqErr.fatal (some (AttemptErr.transport "down"))), [1, 2, 4, 8], 5) ∧
    make_request_openai
        (fun k => if k < 2 then Except.error (AttemptErr.transport "down")
                  else Except.ok ⟨["hello"]⟩) =
      (Except.ok "hello", [1, 2], 3) := by
  constructor
  · exact c1_retry_policy.1 _ (fun _ => AttemptErr.transport "down") (fun _ => rfl)
  · exact c1_retry_policy.2.2.2 _ (fun _ => AttemptErr.transport "down") 2 "hello" [] ⟨["hello"]⟩
      (by omega) (fun k hk => by interval_cases k <;> rfl) (by rfl) rfl

/-! ## Theorems for claims C2, C3, C8 (refine_broll_clip.py) -/

/-- C2. On every successful Tier2 refinement, the returned absolute
timestamps are `windowStart + modelStart` and `windowStart + modelEnd`
with `duration` their difference, where `windowStart` is the actual
clamped-at-0 window start `max 0 (centerTime - padding)` recorded by the
extractor — and when the requested window start is negative, that origin
is `0`. -/
theorem c2_window_relative_transform (approx_start approx_end : ℚ) (padding : ℤ)
    (output_path : Str) (response : ModelResponse) :
    ∃ r, refine_clip approx_start approx_end padding output_path
        (Except.ok ()) (Except.ok response) = Except.ok r ∧
      r.extraction_window.window_start =
        max 0 ((approx_start + approx_end) / 2 - (padding : ℚ)) ∧
      r.tier2_refined = some
        { start := r.extraction_window.window_start + response.timestamp.start_seconds,
          end_ := r.extraction_window.window_start + response.timestamp.end_seconds,
          duration :=
            (r.extraction_window.window_start + response.timestamp.end_seconds) -
            (r.extraction_window.window_start + response.timestamp.start_seconds) } ∧
      ((approx_start + approx_end) / 2 - (padding : ℚ) < 0 →
        r.extraction_window.window_start = 0) := by
  refine ⟨_, rfl, rfl, ?_, ?_⟩
  · simp only [Option.some.injEq, Tier2Refined.mk.injEq]
    refine ⟨by ring, by ring, by ring⟩
  · intro h
    exact max_eq_left h.le

/-- Witness for C2 at the spec's round-trip example: approx 80-86 with
padding 20 gives window start 63; model-relative 5.2/10.7 becomes absolute
68.2/73.7 with duration 5.5. -/
theorem c2_window_relative_transform_witness :
    ∃ r, refine_clip 80 86 20 "w.mp4".data (Except.ok ())
        (Except.ok { timestamp := { start_seconds := 5.2, end_seconds := 10.7 },
                     validation := { clean_start := some true, clean_end := some true,
                                     no_humans := some true, complete_content := some true,
                                     matches_description := some true,
                                     confidence := some 0.95, issues := some [] },
                     description := none }) = Except.ok r ∧
      r.tier2_refined = some { start := 68.2, end_ := 73.7, duration := 5.5 } := by
  obtain ⟨r, hr, hws, ht2, -⟩ := c2_window_relative_transform 80 86 20 "w.mp4".data
    { timestamp := { start_seconds := 5.2, end_seconds := 10.7 },
      validation := { clean_start := some true, clean_end := some true,
                      no_humans := some true, complete_content := some true,
                      matches_description := some true,
                      confidence := some 0.95, issues := some [] },
      description := none }
  refine ⟨r, hr, ?_⟩
  rw [ht2, hws]
  norm_num

/-- C3. Failure containment in `refine_clip`: an analysis failure is
caught and converted into a `tier2_refined = none` record with confidence
`0.0` and an issue string — but an extraction failure is NOT: the call to
`extract_video_window` sits outside the `try:` block, so its exception
propagates out of `refine_clip` (the code slip the spec's
never-raise-past-this-boundary policy, and the dead defensive
`extraction_result if extraction_result else {}` in the handler,
contradict). -/
theorem c3_failure_containment :
    (∀ (approx_start approx_end : ℚ) (padding : ℤ) (output_path : Str)
        (stderr : Str) (analyze : Except PyErr ModelResponse),
      refine_clip approx_start approx_end padding output_path
          (Except.error stderr) analyze =
        Except.error (PyErr.exception ("ffmpeg extraction failed: ".data ++ stderr))) ∧
    (∀ (approx_start approx_end : ℚ) (padding : ℤ) (output_path : Str)
        (e : PyErr),
      ∃ r, refine_clip approx_start approx_end padding output_path
          (Except.ok ()) (Except.error e) = Except.ok r ∧
        r.tier2_refined = none ∧
        r.validation.confidence = 0 ∧
        r.validation.issues = ["Analysis failed: ".data ++ e.str] ∧
        r.error = some e.str) := by
  refine ⟨fun _ _ _ _ _ _ => rfl, fun approx_start approx_end padding output_path e => ?_⟩
  exact ⟨_, rfl, rfl, by norm_num, rfl, rfl⟩

/-- C8. The extraction request of a Tier2 refinement: with
`centerTime = (approxStart + approxEnd) / 2`, the recorded window starts
at `max 0 (centerTime - padding)`, spans `2 * padding`, is re-encoded at
10 fps, and when no clamping occurs it is exactly
`[centerTime - padding, centerTime + padding]`. -/
theorem c8_extraction_window (approx_start approx_end : ℚ) (padding : ℤ)
    (output_path : Str) (response : ModelResponse) :
    ∃ r, refine_clip approx_start approx_end padding output_path
        (Except.ok ()) (Except.ok response) = Except.ok r ∧
      r.extraction_window.window_start =
        max 0 ((approx_start + approx_end) / 2 - (padding : ℚ)) ∧
      r.extraction_window.window_end =
        r.extraction_window.window_start + 2 * (padding : ℚ) ∧
      r.extraction_window.fps = 10 ∧
      (0 ≤ (approx_start + approx_end) / 2 - (padding : ℚ) →
        r.extraction_window.window_start =
          (approx_start + approx_end) / 2 - (padding : ℚ) ∧
        r.extraction_window.window_end =
          (approx_start + approx_end) / 2 + (padding : ℚ)) := by
  refine ⟨_, rfl, rfl, ?_, rfl, ?_⟩
  · show max 0 ((approx_start + approx_end) / 2 - (padding : ℚ)) + ((padding * 2 : ℤ) : ℚ) =
      max 0 ((approx_start + approx_end) / 2 - (padding : ℚ)) + 2 * (padding : ℚ)
    push_cast
    ring
  · intro h
    have hmax : max 0 ((approx_start + approx_end) / 2 - (padding : ℚ)) =
        (approx_start + approx_end) / 2 - (padding : ℚ) := max_eq_right h
    refine ⟨hmax, ?_⟩
    show max 0 ((approx_start + approx_end) / 2 - (padding : ℚ)) + ((padding * 2 : ℤ) : ℚ) =
      (approx_start + approx_end) / 2 + (padding : ℚ)
    rw [hmax]
    push_cast
    ring

/-- Witness for C8 at the spec's clamping example: center time 5.0 with
padding 20 is clamped to a window start of 0.0 (window end 40.0); the
unclamped 80-86/padding-20 case yields exactly [63, 103]. -/
theorem c8_extraction_window_witness :
    ∃ r, refine_clip 0 10 20 "w.mp4".data (Except.ok ())
        (Except.ok { timestamp := { start_seconds := 5.2, end_seconds := 10.7 },
                     validation := { clean_start := some true, clean_end := some true,
                                     no_humans := some true, complete_content := some true,
                                     matches_description := some true,
                                     confidence := some 0.95, issues := some [] },
                     description := none }) = Except.ok r ∧
      r.extraction_window.window_start = 0 ∧
      r.extraction_window.window_end = 40 := by
  obtain ⟨r, hr, hws, hwe, -, -⟩ := c8_extraction_window 0 10 20 "w.mp4".data
    { timestamp := { start_seconds := 5.2, end_seconds := 10.7 },
      validation := { clean_start := some true, clean_end := some true,
                      no_humans := some true, complete_content := some true,
                      matches_description := some true,
                      confidence := some 0.95, issues := some [] },
      description := none }
  have hws0 : r.extraction_window.window_start = 0 := by
    rw [hws]; norm_num
  exact ⟨r, hr, hws0, by rw [hwe, hws0]; norm_num⟩

/-! ## Theorems for claim C4 (validation conjunction and the exit gate) -/

/-- Counterexample to C4 as stated: a refinement whose model response has
confidence 0.95 but `matches_description = false` still receives the
success disposition (exit code 0) from `main` — the exit gate checks only
`tier2_refined` and `confidence >= 0.7`, never `all_checks_pass`, so
auto-acceptance is NOT equivalent to `allChecksPass ∧ confidence ≥ 0.70`. -/
theorem c4_counterexample :
    ∃ r, refine_clip 83 88 20 "w.mp4".data (Except.ok ())
        (Except.ok { timestamp := { start_seconds := 5.2, end_seconds := 10.7 },
                     validation := { clean_start := some true, clean_end := some true,
                                     no_humans := some true, complete_content := some true,
                                     matches_description := some false,
                                     confidence := some 0.95, issues := some [] },
                     description := none }) = Except.ok r ∧
      r.validation.all_checks_pass = false ∧
      (0.7 : ℚ) ≤ r.validation.confidence ∧
      refine_main_exit r = 0 ∧
      ¬(refine_main_exit r = 0 ↔
          (r.validation.all_checks_pass = true ∧ (0.7 : ℚ) ≤ r.validation.confidence)) := by
  refine ⟨_, rfl, rfl, ?_, ?_, ?_⟩
  · exact (by norm_num : (0.7 : ℚ) ≤ 0.95)
  · simp only [refine_main_exit]
    rw [if_pos]
    exact ⟨rfl, (by norm_num : (0.7 : ℚ) ≤ 0.95)⟩
  · intro hiff
    obtain ⟨hall, -⟩ := hiff.mp (by
      simp only [refine_main_exit]
      rw [if_pos]
      exact ⟨rfl, (by norm_num : (0.7 : ℚ) ≤ 0.95)⟩)
    exact absurd hall (by decide)

/-- C4 amended: `all_checks_pass` is the conjunction of the five
validation booleans (absent keys defaulting to false), but the success
disposition (exit code 0 of `main`) holds for a successful refinement iff
`confidence ≥ 0.70` alone — `all_checks_pass` is not consulted. -/
theorem c4_amended_exit_gate (approx_start approx_end : ℚ) (padding : ℤ)
    (output_path : Str) (response : ModelResponse) :
    ∃ r, refine_clip approx_start approx_end padding output_path
        (Except.ok ()) (Except.ok response) = Except.ok r ∧
      r.validation.all_checks_pass =
        (response.validation.clean_start.getD false &&
         response.validation.clean_end.getD false &&
         response.validation.no_humans.getD false &&
         response.validation.complete_content.getD false &&
         response.validation.matches_description.getD false) ∧
      r.validation.confidence = response.validation.confidence.getD 0.5 ∧
      (refine_main_exit r = 0 ↔ (0.7 : ℚ) ≤ r.validation.confidence) := by
  refine ⟨_, rfl, rfl, rfl, ?_⟩
  constructor
  · intro h0
    by_contra hconf
    simp only [refine_main_exit] at h0
    rw [if_neg] at h0
    · exact absurd h0 (by norm_num)
    · exact fun hand => hconf hand.2
  · intro hconf
    simp only [refine_main_exit]
    rw [if_pos]
    exact ⟨rfl, hconf⟩

/-- Witness for C4 amended: an all-checks-true response with confidence
0.95 has `all_checks_pass = true` and exit code 0. -/
theorem c4_amended_exit_gate_witness :
    ∃ r, refine_clip 83 88 20 "w.mp4".data (Except.ok ())
        (Except.ok { timestamp := { start_seconds := 5.2, end_seconds := 10.7 },
                     validation := { clean_start := some true, clean_end := some true,
                                     no_humans := some true, complete_content := some true,
                                     matches_description := some true,
                                     confidence := some 0.95, issues := some [] },
                     description := none }) = Except.ok r ∧
      r.validation.all_checks_pass = true ∧ refine_main_exit r = 0 := by
  obtain ⟨r, hr, hall, hconf, hgate⟩ := c4_amended_exit_gate 83 88 20 "w.mp4".data
    { timestamp := { start_seconds := 5.2, end_seconds := 10.7 },
      validation := { clean_start := some true, clean_end := some true,
                      no_humans := some true, complete_content := some true,
                      matches_description := some true,
                      confidence := some 0.95, issues := some [] },
      description := none }
  refine ⟨r, hr, ?_, hgate.mpr ?_⟩
  · rw [hall]
    decide
  · rw [hconf]
    exact (by norm_num : (0.7 : ℚ) ≤ 0.95)

/-! ## Theorems for claims C6, C7 (human_refine_broll.py) -/

/-- C6. The Tier3 session on scripted input ["y", "g"] terminates with
final status `accepted_as_is`, usable, and no corrected timestamp — but
the scripted input ["y", "b", "3.0", "9.0", ""] does NOT terminate with
`refined_by_human`: reaching the corrected-timestamp prompt evaluates the
unbound names `model_start`/`model_end` and the session dies with a
`NameError` (caught in `main` as a generic error, exit code 1). -/
theorem c6_session_sequences :
    (∃ r, interactive_refinement 63 ["y".data, "g".data] = Except.ok r ∧
       r.final_status = "accepted_as_is".data ∧
       r.usable_by_orchestrator = true ∧
       r.corrected_timestamp = none) ∧
    interactive_refinement 63 ["y".data, "b".data, "3.0".data, "9.0".data, "".data] =
      Except.error (PyErr.nameError "model_start".data) := by
  exact ⟨⟨_, rfl, rfl, rfl, rfl⟩, rfl⟩

/-- C7. No refine-path prompt is reachable: for every issue type other
than `'g'` ('s', 'e', 'b', or anything else), the session raises
`NameError` at the Question-3 banner before any corrected value is read,
so the claimed per-axis prompting and malformed-input fallback (present as
dead code at lines 120-138) can never execute. -/
theorem c7_refine_path_unreachable :
    get_human_feedback ["y".data, "s".data, "abc".data, "".data] =
      Except.error (PyErr.nameError "model_start".data) ∧
    get_human_feedback ["y".data, "e".data, "xyz".data, "".data] =
      Except.error (PyErr.nameError "model_start".data) ∧
    get_human_feedback ["y".data, "b".data, "12abc".data, "9.0".data, "".data] =
      Except.error (PyErr.nameError "model_start".data) ∧
    get_human_feedback ["y".data, "o".data] =
      Except.error (PyErr.nameError "model_start".data) := by
  exact ⟨rfl, rfl, rfl, rfl⟩

/-! ## Theorems for claim C9 (analyze_video_structured) -/

/-- Helper: `isPrefixOf` is reflexive on `List Char`. -/
theorem isPrefixOf_self_eq_true (l : Str) : l.isPrefixOf l = true := by
  induction l with
  | nil => rfl
  | cons c t ih => simp [List.isPrefixOf, ih]

/-- Helper: a list is a substring of anything that ends with it. -/
theorem isSubstring_append_left (n p : Str) : isSubstring n (p ++ n) = true := by
  induction p with
  | nil =>
      rw [List.nil_append]
      cases n with
      | nil => rfl
      | cons c t =>
          show ((c :: t).isPrefixOf (c :: t) || isSubstring (c :: t) t) = true
          rw [isPrefixOf_self_eq_true]
          exact Bool.true_or _
  | cons c t ih =>
      rw [List.cons_append]
      show (n.isPrefixOf (c :: (t ++ n)) || isSubstring n (t ++ n)) = true
      rw [ih]
      exact Bool.or_true _

/-- Counterexample to C9 as stated: for the fenced malformed response
` ```json\nnot valid\n``` ` the raised error embeds only the
fence-stripped text `not valid`, so the ORIGINAL raw response text is not
contained in the error. -/
theorem c9_counterexample :
    ∃ msg, analyze_video_structured (fun _ => (none : Option Unit))
        "```json\nnot valid\n```".data = Except.error (PyErr.exception msg) ∧
      isSubstring "```json\nnot valid\n```".data msg = false := by
  refine ⟨_, rfl, ?_⟩
  decide

/-- C9 amended: `analyze_video_structured` strips a single
leading/trailing fenced code block and parses the remainder; when the
(fence-stripped) text is not valid JSON it raises an error that contains
the STRIPPED text that was handed to the parser (which equals the raw
response only when stripping changed nothing), and no partial-JSON
recovery is attempted: a successful parse is the only non-error outcome. -/
theorem c9_amended_parse_failure {J : Type} (jsonParse : Str → Option J)
    (raw stripped : Str)
    (h : strip_code_fences (pyStrip raw) = Except.ok stripped) :
    (∀ j, jsonParse stripped = some j →
        analyze_video_structured jsonParse raw = Except.ok j) ∧
    (jsonParse stripped = none →
        analyze_video_structured jsonParse raw =
          Except.error (PyErr.exception (parse_failure_msg stripped)) ∧
        isSubstring stripped (parse_failure_msg stripped) = true) := by
  constructor
  · intro j hj
    simp [analyze_video_structured, h, hj]
  · intro hn
    refine ⟨by simp [analyze_video_structured, h, hn], ?_⟩
    rw [parse_failure_msg]
    exact isSubstring_append_left stripped _

/-- Witness for C9 amended: a fenced valid payload parses to the payload;
an unfenced malformed response raises the exception embedding the text
handed to the parser. -/
theorem c9_amended_parse_failure_witness :
    analyze_video_structured
        (fun s => if s = "[1, 2]".data then some ([1, 2] : List Nat) else none)
        "```json\n[1, 2]\n```".data = Except.ok [1, 2] ∧
    analyze_video_structured (fun _ => (none : Option Unit)) "not json".data =
      Except.error (PyErr.exception (parse_failure_msg "not json".data)) := by
  constructor
  · exact (c9_amended_parse_failure
      (fun s => if s = "[1, 2]".data then some ([1, 2] : List Nat) else none)
      "```json\n[1, 2]\n```".data "[1, 2]".data rfl).1 [1, 2] rfl
  · exact ((c9_amended_parse_failure (fun _ => (none : Option Unit))
      "not json".data "not json".data rfl).2 rfl).1

/-! ## Theorems for claims C5, C10 (identify_broll.py) -/

/-- Helper for C5: for a non-empty keyword list whose keywords carry no
surrounding whitespace, the code's score coincides with the spec's
formula. -/
theorem relevance_score_eq_spec (clip : ClipIn) (keywords : List Str)
    (hne : keywords ≠ [])
    (hstrip : ∀ kw ∈ keywords, pyStrip (pyLower kw) = pyLower kw) :
    calculate_relevance_score clip keywords =
      specRelevanceScore (clip.tags.getD []) (clip.description.getD [])
        clip.visual_quality keywords := by
  have hmap : keywords.map (fun k => pyStrip (pyLower k)) = keywords.map pyLower :=
    List.map_congr_left hstrip
  have hpos : 0 < keywords.length := List.length_pos.mpr hne
  have hmax : max keywords.length 1 = keywords.length := by omega
  have hqual :
      (if clip.visual_quality.getD "medium".data = "high".data then (1.0 : ℚ)
       else if clip.visual_quality.getD "medium".data = "medium".data then 0.6
       else if clip.visual_quality.getD "medium".data = "low".data then 0.3
       else 0.6) = specQualityWeight clip.visual_quality := by
    cases clip.visual_quality <;> rfl
  simp only [calculate_relevance_score, specRelevanceScore, hmap,
    List.filter_map, List.length_map, List.any_map, Function.comp_def, hmax, hqual]
  congr 1
  ring

/-- C5. The relevance score equals
`0.5 × min(tag fraction, 1) + 0.3 × min(description fraction, 1) +
0.2 × quality weight` with case-insensitive substring matching and
2-decimal rounding; a clip is recommended iff the score is ≥ 0.70; and the
spec's example (keywords ["ai","tools"], tags ["AI","Productivity"],
description "uses ai tools daily", quality "high") scores 0.75 and is
recommended. -/
theorem c5_relevance_scoring (clip : ClipIn) (keywords : List Str)
    (hne : keywords ≠ [])
    (hstrip : ∀ kw ∈ keywords, pyStrip (pyLower kw) = pyLower kw) :
    calculate_relevance_score clip keywords =
      specRelevanceScore (clip.tags.getD []) (clip.description.getD [])
        clip.visual_quality keywords ∧
    (∀ (analyze : Except PyErr BrollResponse) (video_path : Str) (sc : ScoredClip),
      sc ∈ identify_broll_clips analyze video_path keywords →
      (sc.recommended = true ↔ (0.7 : ℚ) ≤ sc.relevance_score)) ∧
    calculate_relevance_score exampleClip exampleKeywords = 0.75 ∧
    (∃ sc, identify_broll_clips (Except.ok { clips := some [exampleClip] })
        "demo.mp4".data exampleKeywords = [sc] ∧
      sc.relevance_score = 0.75 ∧ sc.recommended = true) := by
  have hex : calculate_relevance_score exampleClip exampleKeywords = 0.75 := by
    rw [relevance_score_eq_spec exampleClip exampleKeywords (by decide) (by decide)]
    show specRelevanceScore ["AI".data, "Productivity".data]
      "uses ai tools daily".data (some "high".data) exampleKeywords = 0.75
    have h1 : (exampleKeywords.filter (fun kw => ["AI".data, "Productivity".data].any
        (fun tag => isSubstring (pyLower kw) (pyLower tag)))).length = 1 := by decide
    have h2 : (exampleKeywords.filter (fun kw =>
        isSubstring (pyLower kw) (pyLower "uses ai tools daily".data))).length = 2 := by
      decide
    have h3 : exampleKeywords.length = 2 := by decide
    simp only [specRelevanceScore, h1, h2, h3]
    show round2 (0.5 * min ((1 : ℚ) / (2 : ℕ)) 1 + 0.3 * min ((2 : ℚ) / (2 : ℕ)) 1 +
      0.2 * specQualityWeight (some "high".data)) = 0.75
    rw [show specQualityWeight (some "high".data) = 1.0 from rfl]
    norm_num [round2, round_eq]
  refine ⟨relevance_score_eq_spec clip keywords hne hstrip, ?_, hex, ?_⟩
  · intro analyze video_path sc hsc
    cases analyze with
    | error e => simp [identify_broll_clips] at hsc
    | ok resp =>
        simp only [identify_broll_clips, List.mem_map] at hsc
        obtain ⟨c, -, rfl⟩ := hsc
        simp [decide_eq_true_eq]
  · refine ⟨_, rfl, hex, ?_⟩
    show decide ((0.7 : ℚ) ≤ calculate_relevance_score exampleClip exampleKeywords) = true
    rw [decide_eq_true_eq, hex]
    norm_num

/-- Witness for C5: the theorem applied at the spec's own example. -/
theorem c5_relevance_scoring_witness :
    calculate_relevance_score exampleClip exampleKeywords = 0.75 ∧
    (∃ sc, identify_broll_clips (Except.ok { clips := some [exampleClip] })
        "demo.mp4".data exampleKeywords = [sc] ∧
      sc.relevance_score = 0.75 ∧ sc.recommended = true) := by
  obtain ⟨-, -, hex, hrec⟩ :=
    c5_relevance_scoring exampleClip exampleKeywords (by decide) (by decide)
  exact ⟨hex, hrec⟩

/-- C10. A per-video inference failure yields zero candidates for that
video, and the batch output still contains every candidate of every video
whose analysis succeeded. -/
theorem c10_per_video_isolation (analyze : Str → Except PyErr BrollResponse)
    (video_files : List Str) (keywords : List Str) (v : Str) :
    (∀ e, analyze v = Except.error e →
      identify_broll_clips (analyze v) v keywords = []) ∧
    (v ∈ video_files →
      ∀ sc ∈ identify_broll_clips (analyze v) v keywords,
        sc ∈ analyze_source_videos analyze video_files keywords) := by
  constructor
  · intro e he
    rw [he]
    rfl
  · intro hv sc hsc
    unfold analyze_source_videos
    rw [(List.mergeSort_perm _ _).mem_iff, List.mem_flatten]
    exact ⟨identify_broll_clips (analyze v) v keywords,
      List.mem_map_of_mem _ hv, hsc⟩

/-- Witness for C10: in the two-video fixture the failing video
contributes nothing while the succeeding video's clip survives into the
batch output. -/
theorem c10_per_video_isolation_witness :
    identify_broll_clips (demoAnalyze "bad.mp4".data) "bad.mp4".data exampleKeywords = [] ∧
    ∃ sc, sc ∈ identify_broll_clips (demoAnalyze "good.mp4".data)
        "good.mp4".data exampleKeywords ∧
      sc ∈ analyze_source_videos demoAnalyze ["bad.mp4".data, "good.mp4".data]
        exampleKeywords := by
  constructor
  · exact (c10_per_video_isolation demoAnalyze
      ["bad.mp4".data, "good.mp4".data] exampleKeywords "bad.mp4".data).1
      (PyErr.exception "boom".data) rfl
  · refine ⟨_, List.mem_singleton.mpr rfl, ?_⟩
    exact (c10_per_video_isolation demoAnalyze
      ["bad.mp4".data, "good.mp4".data] exampleKeywords "good.mp4".data).2
      (by decide) _ (List.mem_singleton.mpr rfl)

end QwenVL
